import Mathlib

/-!
# Verification of the Triangulum3D `Frame3D` event/render coordination core

A shallow embedding of `src/triangulum/rendering/gui/frame3d.py` (class
`Frame3D`): the interaction event router, the deferred-action queue and the
render loop.  Python state is modelled as an explicit record
(`Frame3DState`); side effects performed through external collaborators
(camera commands, GL calls, log warnings, task spawning) are modelled as an
emitted list of `Effect` events; Python exceptions are modelled with
`Except PyError`.  Rational numbers stand in for Python floats — all the
arithmetic the claims touch is exact (divisions by the viewport dimensions),
so no rounding behaviour is lost.  Python strings (dropped file paths) are
modelled as `List Char`.
-/

namespace Triangulum

/-- GLFW constants used by `frame3d.py` (values from the GLFW C API, which
`cyglfw3` re-exports verbatim). -/
def PRESS : Nat := 1

/-- GLFW action code for a button/key release. -/
def RELEASE : Nat := 0

/-- GLFW code of the left mouse button. -/
def MOUSE_BUTTON_LEFT : Nat := 0

/-- GLFW code of the right mouse button. -/
def MOUSE_BUTTON_RIGHT : Nat := 1

/-- GLFW key code of `P` (toggle camera projection mode). -/
def KEY_P : Nat := 80

/-- GLFW key code of `E` (toggle edge rendering). -/
def KEY_E : Nat := 69

/-- GLFW key code of `S` (capture screenshot). -/
def KEY_S : Nat := 83

/-- GLFW key code of `Escape` (request window close). -/
def KEY_ESCAPE : Nat := 256

/-- GLFW key code of the left Alt key. -/
def KEY_LEFT_ALT : Nat := 342

/-- A Python string, post `decode('utf-8')`. -/
abbrev PyStr := List Char

/-- A 3D point (world-space), components exact rationals. -/
abbrev Point3 := ℚ × ℚ × ℚ

/-- Camera projection mode (`CameraMode` enum): the two enumerated values
`perspective` and `ortho` used by `frame3d.py`. -/
inductive CameraMode
  | perspective
  | ortho
deriving DecidableEq, Repr

/-- The slice of the `Camera` object that `frame3d.py` itself reads or
writes: `aspect` (assigned on resize), `mode` (toggled by the `P` key) and
`target` (assigned by `_camera_look_at_cursor`).  `target = none` stands for
the camera's externally-chosen initial target, which this file never reads.
The camera's orbit/zoom internals live outside this source file and are
reached only through emitted `Effect` events. -/
structure Camera where
  aspect : ℚ
  mode : CameraMode
  target : Option Point3
deriving DecidableEq, Repr

/-- A deferred action appended to `Frame3D._to_do` by the input handlers:
either the double-click "focus camera on cursor" coroutine or the `S`-key
"capture screenshot" coroutine. -/
inductive Action
  | camera_look_at_cursor
  | make_screenshot_and_save
deriving DecidableEq, Repr

/-- An externally observable side effect emitted by an input handler or by
rendering: a call into the camera controller, the double-click detector, the
GL layer, the FPS limiter (`update`), the logger, or the task spawner. -/
inductive Effect
  | doubleClickPressed (button : Nat)
  | cameraRotate (dx dy : ℚ)
  | cameraMove (dx dy : ℚ)
  | cameraZoomIn (y : ℚ)
  | update
  | printCursor
  | setWindowShouldClose
  | invokeCallback (name : PyStr)
  | warnUnsupported (path : PyStr)
  | spawnLoadTask (path : PyStr)
  | glViewport (w h : ℚ)
  | renderScene
  | swapBuffers
deriving DecidableEq, Repr

/-- Python exceptions that the modelled code can raise. -/
inductive PyError
  | attributeError
  | assertionError
  | typeError
deriving DecidableEq, Repr

/-- The mutable state of a `Frame3D` instance: the fields of the Python
object that the claims touch.  `keyboard_buttons_down` is the key→mods dict
as an insertion-ordered association list; `edges_mode = none` models the
`_edges_mode` attribute not existing on the object (it is never assigned in
`__init__`). -/
structure Frame3DState where
  width : ℚ
  height : ℚ
  viewport_actual : Bool
  initialized : Bool
  camera : Camera
  last_mouse_xy : Option (ℚ × ℚ)
  mouse_buttons_down : Finset Nat
  keyboard_buttons_down : List (Nat × Nat)
  on_keyboard_callbacks : List PyStr
  edges_mode : Option Bool
  to_do : List Action
deriving DecidableEq

/-- Python dict membership test (`key in d`). -/
def dict_mem (d : List (Nat × Nat)) (k : Nat) : Bool :=
  d.any (fun p => p.1 = k)

/-- Python dict lookup (`d[key]`), `none` when absent. -/
def dict_get (d : List (Nat × Nat)) (k : Nat) : Option Nat :=
  (d.find? (fun p => p.1 = k)).map (fun p => p.2)

/-- Python dict assignment (`d[key] = v`): overwrite in place when present,
append otherwise (insertion order preserved, as in CPython). -/
def dict_set (d : List (Nat × Nat)) (k v : Nat) : List (Nat × Nat) :=
  if dict_mem d k then d.map (fun p => if p.1 = k then (k, v) else p)
  else d ++ [(k, v)]

/-- Python dict deletion (`del d[key]`). -/
def dict_del (d : List (Nat × Nat)) (k : Nat) : List (Nat × Nat) :=
  d.filter (fun p => ¬p.1 = k)

/-- `Frame3D.__init__(width, height, ...)`: the initial object state.  The
camera is constructed externally with `aspect = height / width`; its initial
mode is whatever the external `Camera` constructor chooses (the claims never
depend on it, we record `perspective`).  Note that `__init__` assigns no
`_edges_mode` attribute, hence `edges_mode := none`. -/
def Frame3D.new (width height : ℚ) : Frame3DState :=
  { width := width
    height := height
    viewport_actual := false
    initialized := false
    camera := { aspect := height / width, mode := CameraMode.perspective, target := none }
    last_mouse_xy := none
    mouse_buttons_down := ∅
    keyboard_buttons_down := []
    on_keyboard_callbacks := []
    edges_mode := none
    to_do := [] }

/-- `Frame3D._is_button_down(key, mods=0)`: true iff `key` is in the
keyboard dict with exactly the given modifier mask. -/
def is_button_down (s : Frame3DState) (key mods : Nat) : Bool :=
  match dict_get s.keyboard_buttons_down key with
  | none => false
  | some m => m = mods

/-- `Frame3D._on_mouse_button(window, button, action, mods)`: a press adds
the button to the pressed set and feeds the double-click detector; a release
removes the button only if it is present. -/
def on_mouse_button (s : Frame3DState) (button action : Nat) :
    Frame3DState × List Effect :=
  if action = PRESS then
    ({ s with mouse_buttons_down := insert button s.mouse_buttons_down },
     [Effect.doubleClickPressed button])
  else if action = RELEASE then
    if button ∈ s.mouse_buttons_down then
      ({ s with mouse_buttons_down := s.mouse_buttons_down.erase button }, [])
    else (s, [])
  else (s, [])

/-- `Frame3D._on_scroll(window, x, y)`: a nonzero vertical delta issues a
`zoom_in` camera call and requests a redraw. -/
def on_scroll (s : Frame3DState) (y : ℚ) : Frame3DState × List Effect :=
  if y ≠ 0 then (s, [Effect.cameraZoomIn y, Effect.update]) else (s, [])

/-- `Frame3D._on_mouse_double_click(button)`: a left-button double click
enqueues the "focus camera on cursor" deferred action and requests a
redraw. -/
def on_mouse_double_click (s : Frame3DState) (button : Nat) :
    Frame3DState × List Effect :=
  if button = MOUSE_BUTTON_LEFT then
    ({ s with to_do := s.to_do ++ [Action.camera_look_at_cursor] }, [Effect.update])
  else (s, [])

/-- `Frame3D._on_mouse_move(window, x, y)`: flips `y` to bottom-left origin,
computes the delta from the last recorded position (if any), issues an
Alt-held cursor probe, a left-drag `rotate`, and a right-drag `move` with
both deltas negated and divided by the stored viewport *width*, then records
the new position. -/
def on_mouse_move (s : Frame3DState) (x y0 : ℚ) : Frame3DState × List Effect :=
  let y := s.height - y0
  let mouse_delta : Option (ℚ × ℚ) :=
    match s.last_mouse_xy with
    | none => none
    | some p => some (x - p.1, y - p.2)
  let effAlt := if is_button_down s KEY_LEFT_ALT 0 then [Effect.printCursor] else []
  let effLeft :=
    match mouse_delta with
    | some d =>
      if MOUSE_BUTTON_LEFT ∈ s.mouse_buttons_down then
        [Effect.cameraRotate d.1 d.2, Effect.update]
      else []
    | none => []
  let effRight :=
    match mouse_delta with
    | some d =>
      if MOUSE_BUTTON_RIGHT ∈ s.mouse_buttons_down then
        [Effect.cameraMove (-d.1 / s.width) (-d.2 / s.width), Effect.update]
      else []
    | none => []
  ({ s with last_mouse_xy := some (x, y) }, effAlt ++ effLeft ++ effRight)

/-- Python `path.endswith(suffix)` on decoded strings. -/
def endswith (suffix path : PyStr) : Bool :=
  List.isSuffixOf suffix path

/-- The `'.ply'` literal of `_on_drop`. -/
def ply_suffix : PyStr := ['.', 'p', 'l', 'y']

/-- `Frame3D._on_drop(window, paths)`: for each dropped path in order, a
path not ending in `'.ply'` logs a warning and `continue`s; a `.ply` path
spawns an independent wrapped `read_and_register` task.  Either way the loop
proceeds to the remaining paths. -/
def on_drop : List PyStr → List Effect
  | [] => []
  | path :: rest =>
    if endswith ply_suffix path = false then
      Effect.warnUnsupported path :: on_drop rest
    else
      Effect.spawnLoadTask path :: on_drop rest

/-- `Frame3D._on_keyboard(window, key, scancode, action, mods)`.  On PRESS
the handler runs the Alt / `P` / `E` / `Escape` / `S` branches in order and
then records `key → mods` in the keyboard dict; on RELEASE it deletes the
key's record only if present; the registered external callbacks run last.
The `E` branch executes `self._edges_mode = not self._edges_mode`: reading
`_edges_mode` raises `AttributeError` when the attribute was never assigned
(`edges_mode = none`), which aborts the handler before the dict update and
the external callbacks, exactly as a Python exception would. -/
def on_keyboard (s : Frame3DState) (key action mods : Nat) :
    Except PyError (Frame3DState × List Effect) := do
  let cbEffs := s.on_keyboard_callbacks.map Effect.invokeCallback
  if action = PRESS then
    let effAlt := if key = KEY_LEFT_ALT then [Effect.printCursor] else []
    let sp :=
      if key = KEY_P then
        if s.camera.mode = CameraMode.perspective then
          ({ s with camera := { s.camera with mode := CameraMode.ortho } },
           [Effect.update])
        else
          ({ s with camera := { s.camera with mode := CameraMode.perspective } },
           [Effect.update])
      else (s, [])
    let se ←
      if key = KEY_E then
        match sp.1.edges_mode with
        | none => Except.error PyError.attributeError
        | some b =>
          Except.ok ({ sp.1 with edges_mode := some (!b) }, [Effect.update])
      else Except.ok (sp.1, [])
    let effEsc := if key = KEY_ESCAPE then [Effect.setWindowShouldClose, Effect.update] else []
    let ss :=
      if key = KEY_S then
        ({ se.1 with to_do := se.1.to_do ++ [Action.make_screenshot_and_save] },
         [Effect.update])
      else (se.1, [])
    let sDone := { ss.1 with
      keyboard_buttons_down := dict_set ss.1.keyboard_buttons_down key mods }
    Except.ok (sDone, effAlt ++ sp.2 ++ se.2 ++ effEsc ++ ss.2 ++ cbEffs)
  else if action = RELEASE then
    let sr :=
      if dict_mem s.keyboard_buttons_down key then
        { s with keyboard_buttons_down := dict_del s.keyboard_buttons_down key }
      else s
    Except.ok (sr, cbEffs)
  else
    Except.ok (s, cbEffs)

/-- `Frame3D._on_resize(window, width, height)`: stores the new dimensions,
marks the viewport stale, recomputes `camera.aspect = height / width` and
requests a redraw. -/
def on_resize (s : Frame3DState) (width height : ℚ) : Frame3DState × List Effect :=
  ({ s with
      width := width
      height := height
      viewport_actual := false
      camera := { s.camera with aspect := height / width } },
   [Effect.update])

/-- `Frame3D._gl_update_viewport()`: issues `glViewport(0, 0, w, h)` and
marks the viewport current, but only when it is stale. -/
def gl_update_viewport (s : Frame3DState) : Frame3DState × List Effect :=
  if s.viewport_actual = false then
    ({ s with viewport_actual := true }, [Effect.glViewport s.width s.height])
  else (s, [])

/-- `Frame3D.render()`: update the GL viewport if stale (through the GL
executor), render the scene, and swap buffers. -/
def render (s : Frame3DState) : Frame3DState × List Effect :=
  let vp := gl_update_viewport s
  (vp.1, vp.2 ++ [Effect.renderScene, Effect.swapBuffers])

/-- `Frame3D._determine_cursor_position()`.  The depth sample `z` that
`glReadPixels` returns under the cursor is an input to the model; `unproj`
stands for `math.homo_translate(np.linalg.inv(camera.get_mvp_matrix()), ·)`,
the camera's inverse-MVP unprojection implemented outside this source file.
Unpacking `self._last_mouse_xy` raises `TypeError` when it is `None`; a
depth equal to the far-plane value `1.0` returns `None` ("no hit");
otherwise the normalized device coordinate is unprojected. -/
def determine_cursor_position (unproj : Camera → Point3 → Point3)
    (s : Frame3DState) (z : ℚ) : Except PyError (Option Point3) :=
  match s.last_mouse_xy with
  | none => Except.error PyError.typeError
  | some (x, y) =>
    if z = 1 then Except.ok none
    else
      let nx := (x - 1/2) / s.width * 2 - 1
      let ny := (y - 1/2) / s.height * 2 - 1
      let nz := z * 2 - 1
      Except.ok (some (unproj s.camera (nx, ny, nz)))

/-- `Frame3D._camera_look_at_cursor()`: sets the camera target to the
unprojected point under the cursor, or leaves the state untouched (logging
"Double click on empty pixel!") when the cursor query reports no hit. -/
def camera_look_at_cursor (unproj : Camera → Point3 → Point3)
    (s : Frame3DState) (z : ℚ) : Except PyError Frame3DState :=
  match determine_cursor_position unproj s z with
  | Except.error e => Except.error e
  | Except.ok none => Except.ok s
  | Except.ok (some p) =>
    Except.ok { s with camera := { s.camera with target := some p } }

/-- A window-callback registration or context/renderer initialization step
performed by `Frame3D.init()`, in source order. -/
inductive InitStep
  | setMouseButtonCallback
  | setDoubleClickCallback
  | setScrollCallback
  | setCursorPosCallback
  | setKeyCallback
  | setDropCallback
  | setWindowSizeCallback
  | setWindowCloseCallback
  | initGlContext
  | rendererInit
deriving DecidableEq, Repr

/-- The full registration/initialization sequence `Frame3D.init()` performs,
in order. -/
def init_steps : List InitStep :=
  [InitStep.setMouseButtonCallback, InitStep.setDoubleClickCallback,
   InitStep.setScrollCallback, InitStep.setCursorPosCallback,
   InitStep.setKeyCallback, InitStep.setDropCallback,
   InitStep.setWindowSizeCallback, InitStep.setWindowCloseCallback,
   InitStep.initGlContext, InitStep.rendererInit]

/-- `Frame3D.init()`: `assert not self._initialized` (an `AssertionError`
when it already ran), then register every window callback, initialize the GL
context and the renderer, and set the initialized flag. -/
def Frame3D.init (s : Frame3DState) :
    Except PyError (Frame3DState × List InitStep) :=
  if s.initialized then Except.error PyError.assertionError
  else Except.ok ({ s with initialized := true }, init_steps)

/-- The externally determined outcome of one `render_loop` iteration's
environment: whether `glfw.WindowShouldClose` reports a close request at the
top of the loop, whether `ensure_frame_limit` is cancelled, and which
deferred actions the input callbacks running inside `glfw.PollEvents`
append to `_to_do`. -/
structure IterInput (α : Type) where
  shouldClose : Bool
  cancelled : Bool
  newTasks : List α
deriving DecidableEq, Repr

/-- Cancellation signal of the FPS limiter (`concurrent.futures.CancelledError`). -/
inductive CancelledError
  | cancelledError
deriving DecidableEq, Repr

/-- Modelled from the spec: `FPSLimiter.ensure_frame_limit(poll_fn)` (file
`triangulum/rendering/gui/utils/fps_limiter.py`, not part of the sources
here) polls events and throttles, and fails with the cancellation condition
exactly when the limiter was stopped; the model exposes that outcome as a
boolean input. -/
def ensure_frame_limit (cancelled : Bool) : Except CancelledError Unit :=
  if cancelled then Except.error CancelledError.cancelledError
  else Except.ok ()

/-- One observable event of `Frame3D.render_loop()`: entering the limiter
poll, awaiting one deferred task to completion (`yield from task`), a
`render()` call, the "Stopped!" log on cancellation, or the implicit
`init()` performed on first entry. -/
inductive Ev (α : Type)
  | initCalled
  | pollOk
  | pollCancelled
  | awaitTask (a : α)
  | renderEv
  | stoppedLog
deriving DecidableEq, Repr

/-- The `for task in self._to_do: yield from task` drain: awaits each
pending task to completion, in list (enqueue) order. -/
def drainTrace {α : Type} : List α → List (Ev α)
  | [] => []
  | t :: ts => Ev.awaitTask t :: drainTrace ts

/-- The `while not glfw.WindowShouldClose(...)` loop of
`Frame3D.render_loop()`, after initialization, as a trace of events.  Each
iteration consumes one `IterInput`; an exhausted script ends the run (the
window stays closed from then on).  Per iteration: exit if close was
requested; poll through `ensure_frame_limit`, and on `CancelledError` log
"Stopped!" and `break`; otherwise drain the whole queue (the tasks pending
from before plus those enqueued during the poll) to completion in FIFO
order, assign `_to_do = []`, and only then call `render()`. -/
def render_loop_from {α : Type} : List (IterInput α) → List α → List (Ev α)
  | [], _ => []
  | it :: rest, toDo =>
    if it.shouldClose then []
    else
      match ensure_frame_limit it.cancelled with
      | Except.error _ => [Ev.pollCancelled, Ev.stoppedLog]
      | Except.ok _ =>
        Ev.pollOk ::
          (drainTrace (toDo ++ it.newTasks) ++ (Ev.renderEv :: render_loop_from rest []))

/-- `Frame3D.render_loop()` seen from the public interface: when the
instance is not yet initialized it performs `self.init()` first (the assert
passes since `initialized = false`), then enters the polling loop with the
instance's pending queue. -/
def render_loop (s : Frame3DState) (script : List (IterInput Action)) :
    Except PyError (List (Ev Action)) :=
  if s.initialized then Except.ok (render_loop_from script s.to_do)
  else
    match Frame3D.init s with
    | Except.error e => Except.error e
    | Except.ok (s1, _) =>
      Except.ok (Ev.initCalled :: render_loop_from script s1.to_do)

/-! ## Helper lemmas -/

/-- The drain awaits exactly the queued tasks, in enqueue order. -/
theorem drainTrace_eq_map {α : Type} (l : List α) :
    drainTrace l = l.map Ev.awaitTask := by
  induction l with
  | nil => rfl
  | cons t ts ih => simp [drainTrace, ih]

/-- The polling loop never emits an `initCalled` event: initialization can
only come from the prologue of `render_loop`. -/
theorem initCalled_not_mem_render_loop_from {α : Type} :
    ∀ (script : List (IterInput α)) (toDo : List α),
      Ev.initCalled ∉ render_loop_from script toDo := by
  intro script
  induction script with
  | nil => intro toDo; simp [render_loop_from]
  | cons it rest ih =>
    intro toDo
    by_cases h1 : it.shouldClose <;> by_cases h2 : it.cancelled
    · simp [render_loop_from, h1]
    · simp [render_loop_from, h1]
    · simp [render_loop_from, h1, h2, ensure_frame_limit]
    · simp [render_loop_from, h1, h2, ensure_frame_limit, drainTrace_eq_map]
      exact ih []

/-! ## The claims -/

/-- Claim C1: in every `render_loop` iteration whose frame-limiter poll
succeeds (no close request, no cancellation), the trace of the iteration is
exactly: the poll, then one `awaitTask` per coroutine pending in `_to_do`
(those left from before plus those enqueued during the poll) in FIFO order,
and only then the `render()` call; the loop continues with an empty queue,
so no render is issued while a previously enqueued deferred action is
incomplete. -/
theorem claim_C1_drain_fifo_then_render {α : Type} (it : IterInput α)
    (rest : List (IterInput α)) (toDo : List α)
    (h1 : it.shouldClose = false) (h2 : it.cancelled = false) :
    render_loop_from (it :: rest) toDo =
      Ev.pollOk ::
        (((toDo ++ it.newTasks).map Ev.awaitTask) ++
          (Ev.renderEv :: render_loop_from rest [])) := by
  simp [render_loop_from, h1, h2, ensure_frame_limit, drainTrace_eq_map]

/-- Witness for C1 at a concrete iteration: one leftover task and one task
enqueued during the poll are awaited in FIFO order before the render. -/
theorem claim_C1_witness :
    render_loop_from
        [IterInput.mk false false [Action.make_screenshot_and_save]]
        [Action.camera_look_at_cursor] =
      [Ev.pollOk, Ev.awaitTask Action.camera_look_at_cursor,
       Ev.awaitTask Action.make_screenshot_and_save, Ev.renderEv] := by
  have h := claim_C1_drain_fifo_then_render
    (IterInput.mk false false [Action.make_screenshot_and_save])
    [] [Action.camera_look_at_cursor] rfl rfl
  simpa [render_loop_from] using h

/-- Claim C2: when `ensure_frame_limit` raises the cancellation condition in
an iteration, the loop logs "Stopped!" and breaks: the iteration's trace is
exactly the cancelled poll plus the log, with no deferred action awaited and
no render call after the cancellation, and `render_loop_from` returns
normally (the exception does not propagate: its result type is a plain
trace, produced by the `except CancelledError` branch). -/
theorem claim_C2_cancellation_clean_exit {α : Type} (it : IterInput α)
    (rest : List (IterInput α)) (toDo : List α)
    (h1 : it.shouldClose = false) (h2 : it.cancelled = true) :
    render_loop_from (it :: rest) toDo = [Ev.pollCancelled, Ev.stoppedLog] ∧
    (∀ a : α, Ev.awaitTask a ∉ render_loop_from (it :: rest) toDo) ∧
    Ev.renderEv ∉ render_loop_from (it :: rest) toDo := by
  have he : render_loop_from (it :: rest) toDo = [Ev.pollCancelled, Ev.stoppedLog] := by
    simp [render_loop_from, h1, h2, ensure_frame_limit]
  refine ⟨he, ?_, ?_⟩ <;> simp [he]

/-- Witness for C2 at a concrete cancelled iteration with a nonempty queue
and further scripted iterations that are never reached. -/
theorem claim_C2_witness :
    render_loop_from
        [IterInput.mk false true [Action.make_screenshot_and_save],
         IterInput.mk false false []]
        [Action.camera_look_at_cursor] =
      [Ev.pollCancelled, Ev.stoppedLog] ∧
    Ev.renderEv ∉ render_loop_from
        [IterInput.mk false true [Action.make_screenshot_and_save],
         IterInput.mk false false []]
        [Action.camera_look_at_cursor] :=
  let h := claim_C2_cancellation_clean_exit
    (IterInput.mk false true [Action.make_screenshot_and_save])
    [IterInput.mk false false []] [Action.camera_look_at_cursor] rfl rfl
  ⟨h.1, h.2.2⟩

/-- Claim C7: on a not-yet-initialized instance the `assert not
self._initialized` is satisfied and `init()` performs the full registration
and initialization sequence (every window callback, the GL context, the
renderer) and sets the flag; calling `init()` again on the resulting state
fails the assertion with `AssertionError` instead of completing. -/
theorem claim_C7_double_init_is_assertion_error (s : Frame3DState)
    (h : s.initialized = false) :
    Frame3D.init s = Except.ok ({ s with initialized := true }, init_steps) ∧
    Frame3D.init { s with initialized := true } =
      Except.error PyError.assertionError := by
  simp [Frame3D.init, h]

/-- Witness for C7 on a freshly constructed `Frame3D(640, 480)`. -/
theorem claim_C7_witness :
    Frame3D.init (Frame3D.new 640 480) =
      Except.ok ({ Frame3D.new 640 480 with initialized := true }, init_steps) ∧
    Frame3D.init { Frame3D.new 640 480 with initialized := true } =
      Except.error PyError.assertionError :=
  claim_C7_double_init_is_assertion_error (Frame3D.new 640 480) rfl

/-- Claim C9: `render_loop()` on an uninitialized instance first performs
the full `init()` (which succeeds: the assert's precondition holds), exactly
once — the trace starts with the one `initCalled` event and the polling loop
emits no other — and then enters the polling loop; running `render_loop` on
the explicitly initialized state yields the same polling-loop trace, so
prior explicit initialization is not required. -/
theorem claim_C9_render_loop_self_initializes (s : Frame3DState)
    (script : List (IterInput Action)) (h : s.initialized = false) :
    Frame3D.init s = Except.ok ({ s with initialized := true }, init_steps) ∧
    render_loop s script =
      Except.ok (Ev.initCalled :: render_loop_from script s.to_do) ∧
    render_loop { s with initialized := true } script =
      Except.ok (render_loop_from script s.to_do) ∧
    Ev.initCalled ∉ render_loop_from script s.to_do := by
  refine ⟨by simp [Frame3D.init, h], ?_, by simp [render_loop], ?_⟩
  · simp [render_loop, h, Frame3D.init]
  · exact initCalled_not_mem_render_loop_from script s.to_do

/-- Witness for C9 on a freshly constructed `Frame3D(640, 480)` and a
one-iteration script. -/
theorem claim_C9_witness :
    render_loop (Frame3D.new 640 480) [IterInput.mk false false []] =
      Except.ok [Ev.initCalled, Ev.pollOk, Ev.renderEv] := by
  have h := claim_C9_render_loop_self_initializes (Frame3D.new 640 480)
    [IterInput.mk false false []] rfl
  rw [h.2.1]
  simp [render_loop_from, ensure_frame_limit, Frame3D.new, drainTrace]

/-- Claim C3: on a mouse-move with the right button pressed and a last
cursor position recorded (so the delta `(dx, dy)` is defined — in the
flipped-`y` coordinates the handler uses), the emitted effects contain a
`camera.move` call, and every `camera.move` the handler emits has exactly
the arguments `(-dx / width, -dy / width)`: both deltas inverted and
normalized by the stored viewport width, never by the height. -/
theorem claim_C3_right_drag_moves_width_normalized (s : Frame3DState)
    (x y0 px py : ℚ) (hr : MOUSE_BUTTON_RIGHT ∈ s.mouse_buttons_down)
    (hl : s.last_mouse_xy = some (px, py)) :
    (∀ a b : ℚ,
      Effect.cameraMove a b ∈ (on_mouse_move s x y0).2 ↔
        (a = -(x - px) / s.width ∧ b = -((s.height - y0) - py) / s.width)) ∧
    Effect.cameraMove (-(x - px) / s.width) (-((s.height - y0) - py) / s.width)
      ∈ (on_mouse_move s x y0).2 := by
  have hmem : ∀ a b : ℚ,
      Effect.cameraMove a b ∈ (on_mouse_move s x y0).2 ↔
        (a = -(x - px) / s.width ∧ b = -((s.height - y0) - py) / s.width) := by
    intro a b
    simp only [on_mouse_move, hl, hr]
    by_cases halt : is_button_down s KEY_LEFT_ALT 0 <;>
      by_cases hleft : MOUSE_BUTTON_LEFT ∈ s.mouse_buttons_down <;>
        simp [halt, hleft, neg_div]
  exact ⟨hmem, (hmem _ _).2 ⟨rfl, rfl⟩⟩

/-- Witness for C3: with viewport 640×480, right button pressed, last
position `(10, 20)` and a move to raw `(4, 478)` (flipped `y = 2`), the
handler emits `camera.move(-(-6)/640, -(-18)/640) = move(3/320, 9/320)`. -/
theorem claim_C3_witness :
    Effect.cameraMove (3/320) (9/320) ∈
      (on_mouse_move
        { Frame3D.new 640 480 with
            mouse_buttons_down := {MOUSE_BUTTON_RIGHT},
            last_mouse_xy := some (10, 20) } 4 478).2 := by
  have h := claim_C3_right_drag_moves_width_normalized
    { Frame3D.new 640 480 with
        mouse_buttons_down := {MOUSE_BUTTON_RIGHT},
        last_mouse_xy := some (10, 20) } 4 478 10 20 (by decide) rfl
  exact (h.1 (3/320) (9/320)).2 (by norm_num [Frame3D.new])

/-- Claim C4: after `_on_resize(width, height)` the stored dimensions are
`(width, height)`, the camera aspect is `height / width`, and the viewport
is stale; the next `render()` issues exactly one `glViewport` call (before
the scene draw) and leaves the viewport current; any render from a
current-viewport state issues no `glViewport` and does not change the
state, so renders with no intervening resize issue none. -/
theorem claim_C4_resize_viewport_once (s : Frame3DState) (w h : ℚ) :
    (on_resize s w h).1.width = w ∧
    (on_resize s w h).1.height = h ∧
    (on_resize s w h).1.camera.aspect = h / w ∧
    (on_resize s w h).1.viewport_actual = false ∧
    (render (on_resize s w h).1).2 =
      [Effect.glViewport w h, Effect.renderScene, Effect.swapBuffers] ∧
    (render (on_resize s w h).1).1.viewport_actual = true ∧
    (∀ s2 : Frame3DState, s2.viewport_actual = true →
      (render s2).2 = [Effect.renderScene, Effect.swapBuffers] ∧
      (render s2).1 = s2) := by
  refine ⟨rfl, rfl, rfl, rfl, ?_, ?_, ?_⟩
  · simp [render, gl_update_viewport, on_resize]
  · simp [render, gl_update_viewport, on_resize]
  · intro s2 h2
    simp [render, gl_update_viewport, h2]

/-- Witness for C4: resizing a fresh `Frame3D(640, 480)` to 800×600 yields
aspect `3/4`, one `glViewport(800, 600)` in the next render, and none in
the render after it. -/
theorem claim_C4_witness :
    (on_resize (Frame3D.new 640 480) 800 600).1.camera.aspect = 3/4 ∧
    (render (on_resize (Frame3D.new 640 480) 800 600).1).2 =
      [Effect.glViewport 800 600, Effect.renderScene, Effect.swapBuffers] ∧
    (render (render (on_resize (Frame3D.new 640 480) 800 600).1).1).2 =
      [Effect.renderScene, Effect.swapBuffers] := by
  have h := claim_C4_resize_viewport_once (Frame3D.new 640 480) 800 600
  refine ⟨?_, h.2.2.2.2.1, ?_⟩
  · rw [h.2.2.1]; norm_num
  · exact (h.2.2.2.2.2.2 _ h.2.2.2.2.2.1).1

/-- The outcome `_on_drop` produces for one dropped path. -/
def drop_outcome (path : PyStr) : Effect :=
  if endswith ply_suffix path = false then Effect.warnUnsupported path
  else Effect.spawnLoadTask path

/-- Claim C5: `_on_drop` processes every dropped path: each path produces
exactly one outcome (`length` preserved — no path aborts or skips the rest
of the batch), a path not ending in `.ply` contributes a warning and spawns
no load task, and each `.ply` path spawns its own independent load task. -/
theorem claim_C5_drop_batch_isolation (paths : List PyStr) :
    on_drop paths = paths.map drop_outcome ∧
    (on_drop paths).length = paths.length ∧
    (∀ p : PyStr, p ∈ paths → endswith ply_suffix p = false →
      Effect.warnUnsupported p ∈ on_drop paths ∧
      Effect.spawnLoadTask p ∉ on_drop paths) ∧
    (∀ p : PyStr, p ∈ paths → endswith ply_suffix p = true →
      Effect.spawnLoadTask p ∈ on_drop paths ∧
      Effect.warnUnsupported p ∉ on_drop paths) := by
  have hmap : ∀ l : List PyStr, on_drop l = l.map drop_outcome := by
    intro l
    induction l with
    | nil => rfl
    | cons p rest ih =>
      by_cases hp : endswith ply_suffix p = false <;>
        simp [on_drop, drop_outcome, hp, ih]
  refine ⟨hmap paths, by rw [hmap paths]; exact List.length_map _ _, ?_, ?_⟩
  · intro p hp hply
    rw [hmap paths]
    constructor
    · exact List.mem_map.2 ⟨p, hp, by simp [drop_outcome, hply]⟩
    · intro hmem
      rcases List.mem_map.1 hmem with ⟨q, _, hq⟩
      by_cases hqply : endswith ply_suffix q = false <;>
        simp [drop_outcome, hqply] at hq
      rcases hq with ⟨rfl⟩
      simp [hply] at hqply
  · intro p hp hply
    rw [hmap paths]
    constructor
    · exact List.mem_map.2 ⟨p, hp, by simp [drop_outcome, hply]⟩
    · intro hmem
      rcases List.mem_map.1 hmem with ⟨q, _, hq⟩
      by_cases hqply : endswith ply_suffix q = false <;>
        simp [drop_outcome, hqply] at hq
      rcases hq with ⟨rfl⟩
      simp [hply] at hqply

/-- Witness for C5: dropping `["a.ply", "b.txt"]` spawns a load task for
the first path, warns on the second, and handles both. -/
theorem claim_C5_witness :
    Effect.spawnLoadTask ['a', '.', 'p', 'l', 'y'] ∈
      on_drop [['a', '.', 'p', 'l', 'y'], ['b', '.', 't', 'x', 't']] ∧
    Effect.warnUnsupported ['b', '.', 't', 'x', 't'] ∈
      on_drop [['a', '.', 'p', 'l', 'y'], ['b', '.', 't', 'x', 't']] ∧
    (on_drop [['a', '.', 'p', 'l', 'y'], ['b', '.', 't', 'x', 't']]).length = 2 := by
  have h := claim_C5_drop_batch_isolation
    [['a', '.', 'p', 'l', 'y'], ['b', '.', 't', 'x', 't']]
  refine ⟨(h.2.2.2 _ (by simp) (by decide)).1,
          (h.2.2.1 _ (by simp) (by decide)).1, h.2.1⟩

/-- Claim C6 (refuted by the code — the claim describes the intended
behaviour): the first press of `E` after construction does NOT toggle the
edge-rendering flag; `__init__` never assigns `_edges_mode`, so
`self._edges_mode = not self._edges_mode` reads a missing attribute and
raises `AttributeError`.  This theorem evaluates `_on_keyboard` at the
failing input (key `E`, action PRESS, mods 0, on a freshly constructed
`Frame3D(640, 480)`) and shows the handler errors instead of toggling. -/
theorem claim_C6_first_E_press_raises :
    on_keyboard (Frame3D.new 640 480) KEY_E PRESS 0 =
      Except.error PyError.attributeError := by
  rfl

/-- Claim C8: when the depth sample under the cursor equals the far-plane
sentinel `1.0`, `_determine_cursor_position` returns the "no hit" result
(`None`) rather than an unprojected point, and `_camera_look_at_cursor`
then leaves the whole state — in particular the camera target —
unchanged.  `unproj` stands for the external inverse-MVP unprojection,
which the sentinel path never calls. -/
theorem claim_C8_far_plane_no_hit (unproj : Camera → Point3 → Point3)
    (s : Frame3DState) (x y : ℚ) (hl : s.last_mouse_xy = some (x, y))
    (z : ℚ) (hz : z = 1) :
    determine_cursor_position unproj s z = Except.ok none ∧
    camera_look_at_cursor unproj s z = Except.ok s := by
  subst hz
  have hd : determine_cursor_position unproj s 1 = Except.ok none := by
    simp [determine_cursor_position, hl]
  exact ⟨hd, by simp [camera_look_at_cursor, hd]⟩

/-- Witness for C8: identity unprojection, cursor recorded at `(5, 7)`,
depth sample exactly `1`. -/
theorem claim_C8_witness :
    determine_cursor_position (fun _ p => p)
        { Frame3D.new 640 480 with last_mouse_xy := some (5, 7) } 1 =
      Except.ok none ∧
    camera_look_at_cursor (fun _ p => p)
        { Frame3D.new 640 480 with last_mouse_xy := some (5, 7) } 1 =
      Except.ok { Frame3D.new 640 480 with last_mouse_xy := some (5, 7) } :=
  claim_C8_far_plane_no_hit (fun _ p => p)
    { Frame3D.new 640 480 with last_mouse_xy := some (5, 7) } 5 7 rfl 1 rfl

/-- Claim C10: a mouse-button RELEASE for a button not in the pressed set
returns the state unchanged with no effects, and a keyboard RELEASE for a
key not in the modifier map succeeds (no error) with the state unchanged
(only the registered external callbacks are invoked); both are no-ops on
the input state. -/
theorem claim_C10_spurious_release_noop (s : Frame3DState)
    (button key mods : Nat) (hb : button ∉ s.mouse_buttons_down)
    (hk : dict_mem s.keyboard_buttons_down key = false) :
    on_mouse_button s button RELEASE = (s, []) ∧
    on_keyboard s key RELEASE mods =
      Except.ok (s, s.on_keyboard_callbacks.map Effect.invokeCallback) := by
  constructor
  · simp [on_mouse_button, PRESS, RELEASE, hb]
  · simp [on_keyboard, PRESS, RELEASE, hk]

/-- Witness for C10: releasing the never-pressed right button and the
never-pressed `E` key on a fresh `Frame3D(640, 480)` changes nothing and
raises nothing. -/
theorem claim_C10_witness :
    on_mouse_button (Frame3D.new 640 480) MOUSE_BUTTON_RIGHT RELEASE =
      (Frame3D.new 640 480, []) ∧
    on_keyboard (Frame3D.new 640 480) KEY_E RELEASE 0 =
      Except.ok (Frame3D.new 640 480, []) :=
  claim_C10_spurious_release_noop (Frame3D.new 640 480)
    MOUSE_BUTTON_RIGHT KEY_E 0 (by decide) rfl

end Triangulum
